import Mathlib

/-!
Verification of the accessibility-audit rule engine of this repository
(`scripts/audit-mobile-accessibility.py` and `scripts/audit-web-aria.py`).

The Python scripts locate element occurrences in component source text with
regular-expression scans and evaluate per-occurrence accessibility rules.
We embed the scanning and rule logic shallowly: source text is `List Char`,
each regex scan becomes an executable Lean scanner with the same
leftmost, non-overlapping `finditer` semantics, and the per-pattern rules
become Lean functions producing `Violation` values, mirroring the Python
control flow branch by branch.
-/

namespace Audit

/-- Source text: a list of characters (the Python scripts operate on `str`). -/
abbrev Str := List Char

/-- ASCII lower-casing, as applied by case-insensitive regex matching
(`re.IGNORECASE`) on the ASCII letters appearing in the audit patterns. -/
def lcChar (c : Char) : Char :=
  if 65 ≤ c.toNat ∧ c.toNat ≤ 90 then Char.ofNat (c.toNat + 32) else c

/-- Case-insensitive character equality. -/
def eqCI (a b : Char) : Bool := lcChar a == lcChar b

/-- Does `s` start with pattern `p`, case-insensitively? -/
def startsWithCI : Str → Str → Bool
  | [], _ => true
  | _ :: _, [] => false
  | p :: ps, c :: cs => eqCI p c && startsWithCI ps cs

/-- Does `s` start with pattern `p`, case-sensitively (Python `str.startswith`)? -/
def startsWithCS : Str → Str → Bool
  | [], _ => true
  | _ :: _, [] => false
  | p :: ps, c :: cs => (p == c) && startsWithCS ps cs

/-- Does some suffix of `s` satisfy `p`?  (The empty suffix included, matching
`re.search`, which tries every start position up to the end of the string.) -/
def existsSuffixB (p : Str → Bool) : Str → Bool
  | [] => p []
  | c :: rest => p (c :: rest) || existsSuffixB p rest

/-- Case-insensitive substring search (`re.search` on a literal pattern with
`re.IGNORECASE`). -/
def containsCI (pat s : Str) : Bool := existsSuffixB (startsWithCI pat) s

/-- Case-sensitive substring search (Python `in` on strings). -/
def containsCS (pat s : Str) : Bool := existsSuffixB (startsWithCS pat) s

/-- Python's regex `\s` on the ASCII range: space, tab, newline, carriage
return, vertical tab, form feed. -/
def isSpace (c : Char) : Bool :=
  c == ' ' || c == '\t' || c == '\n' || c == '\r' ||
  c == Char.ofNat 11 || c == Char.ofNat 12

/-- The quote characters of the attribute-value patterns `["\x27]`. -/
def isQuote (c : Char) : Bool := c == '"' || c == Char.ofNat 39

/-- ASCII alphanumeric, the character class `[A-Za-z0-9]`. -/
def isAlnum (c : Char) : Bool :=
  (65 ≤ c.toNat && c.toNat ≤ 90) || (97 ≤ c.toNat && c.toNat ≤ 122) ||
  (48 ≤ c.toNat && c.toNat ≤ 57)

/-- Does the regex `NAME\s*=` match at the start of `t` (case-insensitive)?
This is the shape of every attribute-presence test in the scripts,
e.g. `re.search(r'accessibilityRole\s*=', attributes, re.IGNORECASE)`. -/
def attrEqAt (name t : Str) : Bool :=
  startsWithCI name t &&
    ((t.drop name.length).dropWhile isSpace).head? == some '='

/-- Embeds `re.search(r'NAME\s*=', s, re.IGNORECASE)` as a Boolean. -/
def hasAttrEq (name s : Str) : Bool := existsSuffixB (attrEqAt name) s

/-- Does the regex `NAME\s*=\s*["\x27]VALUE["\x27]` match at the start of `t`
(case-insensitive, closing quote need not equal the opening quote)? -/
def attrEqQuotedAt (name value t : Str) : Bool :=
  startsWithCI name t &&
    (match (t.drop name.length).dropWhile isSpace with
     | '=' :: r2 =>
       match r2.dropWhile isSpace with
       | q :: r4 =>
         isQuote q && startsWithCI value r4 &&
           (match (r4.drop value.length).head? with
            | some q2 => isQuote q2
            | none => false)
       | [] => false
     | _ => false)

/-- Embeds `re.search(r'NAME\s*=\s*["\x27]VALUE["\x27]', s, re.IGNORECASE)`
as a Boolean. -/
def hasAttrEqQuoted (name value s : Str) : Bool :=
  existsSuffixB (attrEqQuotedAt name value) s

/-- If the regex `id\s*=\s*["\x27]([^"\x27]+)["\x27]` matches at the start of
`t`, return the captured group (the greedy run of non-quote characters,
which must be non-empty and followed by a quote). -/
def idValueAt (t : Str) : Option Str :=
  if startsWithCI ['i', 'd'] t then
    match (t.drop 2).dropWhile isSpace with
    | '=' :: r2 =>
      match r2.dropWhile isSpace with
      | q :: r4 =>
        if isQuote q then
          let run := r4.takeWhile (fun c => !(isQuote c))
          if 1 ≤ run.length &&
              (match (r4.drop run.length).head? with
               | some q2 => isQuote q2
               | none => false)
          then some run else none
        else none
      | [] => none
    | _ => none
  else none

/-- Leftmost application of an extractor over all suffixes of `s`
(`re.search` returning the first match's capture). -/
def firstSomeSuffix {α : Type} (f : Str → Option α) : Str → Option α
  | [] => f []
  | c :: rest =>
    match f (c :: rest) with
    | some a => some a
    | none => firstSomeSuffix f rest

/-- Embeds `re.search(r'id\s*=\s*["\x27]([^"\x27]+)["\x27]', s, re.IGNORECASE)`:
the first captured id value, if any. -/
def firstIdValue (s : Str) : Option Str := firstSomeSuffix idValueAt s

/-- Embeds `content.split('\n')`, Python semantics (`"".split('\n') = [""]`). -/
def splitNl : Str → List Str
  | [] => [[]]
  | c :: rest =>
    if c = '\n' then [] :: splitNl rest
    else
      match splitNl rest with
      | l :: ls => (c :: l) :: ls
      | [] => [[c]]

/-- Embeds the join of lines with a newline separator. -/
def joinNl (ls : List Str) : Str := (ls.intersperse ['\n']).flatten

/-- The 1-based line number of byte offset `pos` in `content`
(`content[:match.start()].count('\n') + 1`). -/
def lineOf (content : Str) (pos : Nat) : Nat :=
  (content.take pos).count '\n' + 1

/-! ### Element Locator: regex scanners

Each `re.finditer` loop becomes `scanWith try?`: at each position try a
single match; on success emit it and resume after the matched span, on
failure advance one character — exactly `finditer`'s leftmost,
non-overlapping semantics.  Recursion is by fuel, initialised to the text
length; every step consumes at least one character, so the fuel never runs
out before the text does. -/

/-- One `finditer` pass, fuelled.  `f s` returns the match payload and the
total matched length at the current position, or `none`. -/
def scanWithAux {α : Type} (f : Str → Option (α × Nat)) :
    Nat → Str → Nat → List (Nat × α)
  | 0, _, _ => []
  | _ + 1, [], _ => []
  | fuel + 1, c :: rest, pos =>
    match f (c :: rest) with
    | some (a, len) => (pos, a) :: scanWithAux f fuel (rest.drop (len - 1)) (pos + len)
    | none => scanWithAux f fuel rest (pos + 1)

/-- Embeds `re.finditer(pattern, content)`: all matches with their start offsets,
left to right, non-overlapping. -/
def scanWith {α : Type} (f : Str → Option (α × Nat)) (s : Str) : List (Nat × α) :=
  scanWithAux f s.length s 0

/-- First name of `names` (regex alternation order) that is a
case-insensitive prefix of `s`. -/
def pickName (names : List Str) (s : Str) : Option Str :=
  match names with
  | [] => none
  | n :: ns => if startsWithCI n s then some n else pickName ns s

/-- Try the pattern `<(N1|N2|...)([^>]*?)>` (with `re.IGNORECASE`) at the
start of `s`.  On success: the tag text as it appears in the source
(`match.group(1)`, case-preserved), the attribute span (`match.group(2)`:
everything from the tag name to the first `>`), and the matched length. -/
def tryTag (names : List Str) (s : Str) : Option ((Str × Str) × Nat) :=
  match s with
  | [] => none
  | c :: rest =>
    if c = '<' then
      match pickName names rest with
      | none => none
      | some n =>
        let tag := rest.take n.length
        let after := rest.drop n.length
        let attrs := after.takeWhile (fun ch => ch != '>')
        match (after.drop attrs.length).head? with
        | some c2 =>
          if c2 = '>' then some ((tag, attrs), n.length + attrs.length + 2)
          else none
        | none => none
    else none

/-! ### Mobile dialect (`audit-mobile-accessibility.py`) -/

/-- One rule violation (the `Violation` dataclass shared by both scripts). -/
structure Violation where
  file : String
  line : Nat
  element : String
  issue : String
  severity : String
  recommendation : String
  code_snippet : String
deriving DecidableEq

/-- The reconstructed `match.group(0)` of a tag match: `<` + tag + attrs + `>`. -/
def tagGroup0 (tag attrs : Str) : Str := '<' :: (tag ++ attrs ++ ['>'])

/-- The attribute name `accessibilityRole` as scanned text. -/
def roleAttr : Str := "accessibilityRole".toList

/-- The attribute name `accessibilityLabel` as scanned text. -/
def labelAttr : Str := "accessibilityLabel".toList

/-- The attribute name `aria-label` as scanned text. -/
def ariaLabel : Str := "aria-label".toList

/-- The attribute name `aria-labelledby` as scanned text. -/
def ariaLabelledBy : Str := "aria-labelledby".toList

/-- The textual marker whose presence earlier in the file exempts a
modal/dialog occurrence: the literal `DialogPrimitive`. -/
def dialogPrimitiveMark : Str := "DialogPrimitive".toList

/-- Alternation of Pattern 1:
`(TouchableOpacity|TouchableHighlight|TouchableWithoutFeedback|Pressable)`. -/
def touchableNames : List Str :=
  ["TouchableOpacity".toList, "TouchableHighlight".toList,
   "TouchableWithoutFeedback".toList, "Pressable".toList]

/-- All matches of Pattern 1, `<(TouchableOpacity|...)([^>]*?)>`, `re.IGNORECASE`. -/
def scanTouchables (content : Str) : List (Nat × (Str × Str)) :=
  scanWith (tryTag touchableNames) content

/-- Pattern 1 rule body: touchable components without `accessibilityRole` /
`accessibilityLabel` (lines 54-82 of the mobile script). -/
def touchableRule (relpath : String) (content : Str)
    (m : Nat × (Str × Str)) : List Violation :=
  let line_num := lineOf content m.1
  let element_type := m.2.1
  let attributes := m.2.2
  let has_role := hasAttrEq roleAttr attributes
  let has_label := hasAttrEq labelAttr attributes
  if !has_role && !has_label then
    [{ file := relpath, line := line_num, element := String.mk element_type,
       issue := "Touchable component missing accessibilityRole and accessibilityLabel",
       severity := "error",
       recommendation := "Add accessibilityRole and accessibilityLabel props",
       code_snippet := String.mk ((tagGroup0 element_type attributes).take 100) }]
  else if !has_label then
    [{ file := relpath, line := line_num, element := String.mk element_type,
       issue := "Touchable component missing accessibilityLabel",
       severity := "error",
       recommendation := "Add accessibilityLabel prop with descriptive text",
       code_snippet := String.mk ((tagGroup0 element_type attributes).take 100) }]
  else []

/-- All matches of Pattern 2, `<Image([^>]*?)>`, `re.IGNORECASE`. -/
def scanImages (content : Str) : List (Nat × (Str × Str)) :=
  scanWith (tryTag ["Image".toList]) content

/-- Pattern 2 rule body: images without `accessibilityLabel` unless decorative
(lines 86-105). -/
def imageRule (relpath : String) (content : Str)
    (m : Nat × (Str × Str)) : List Violation :=
  let line_num := lineOf content m.1
  let attributes := m.2.2
  let is_decorative :=
    hasAttrEqQuoted roleAttr "none".toList attributes ||
    containsCI "accessibilityIgnoresInvertColors".toList attributes
  let has_label := hasAttrEq labelAttr attributes
  if !is_decorative && !has_label then
    [{ file := relpath, line := line_num, element := "Image",
       issue := "Image missing accessibilityLabel",
       severity := "error",
       recommendation := "Add accessibilityLabel prop or mark as decorative with accessibilityRole=\"none\"",
       code_snippet := String.mk ((tagGroup0 m.2.1 attributes).take 100) }]
  else []

/-- All matches of Pattern 3, `<TextInput([^>]*?)>`, `re.IGNORECASE`. -/
def scanTextInputs (content : Str) : List (Nat × (Str × Str)) :=
  scanWith (tryTag ["TextInput".toList]) content

/-- Pattern 3 rule body: text inputs without label or placeholder
(lines 109-126). -/
def textInputRule (relpath : String) (content : Str)
    (m : Nat × (Str × Str)) : List Violation :=
  let line_num := lineOf content m.1
  let attributes := m.2.2
  let has_label := hasAttrEq labelAttr attributes
  let has_placeholder := hasAttrEq "placeholder".toList attributes
  if !has_label && !has_placeholder then
    [{ file := relpath, line := line_num, element := "TextInput",
       issue := "TextInput missing accessibilityLabel and placeholder",
       severity := "error",
       recommendation := "Add accessibilityLabel prop or placeholder",
       code_snippet := String.mk ((tagGroup0 m.2.1 attributes).take 100) }]
  else []

/-- All matches of Pattern 4, `<Button([^>]*?)>`, `re.IGNORECASE`. -/
def scanMobileButtons (content : Str) : List (Nat × (Str × Str)) :=
  scanWith (tryTag ["Button".toList]) content

/-- Pattern 4 rule body: buttons without label or title (lines 130-146). -/
def buttonRule (relpath : String) (content : Str)
    (m : Nat × (Str × Str)) : List Violation :=
  let line_num := lineOf content m.1
  let attributes := m.2.2
  let has_label := hasAttrEq labelAttr attributes
  let has_title := hasAttrEq "title".toList attributes
  if !has_label && !has_title then
    [{ file := relpath, line := line_num, element := "Button",
       issue := "Button missing accessibilityLabel and title",
       severity := "error",
       recommendation := "Add accessibilityLabel prop or title prop",
       code_snippet := String.mk ((tagGroup0 m.2.1 attributes).take 100) }]
  else []

/-- Try Pattern 5, `<View([^>]*onPress[^>]*?)>`, `re.IGNORECASE`: a `View`
tag whose attribute span (bounded by the first `>`) contains `onPress`. -/
def tryView (s : Str) : Option ((Str × Str) × Nat) :=
  match tryTag ["View".toList] s with
  | some ((tag, attrs), len) =>
    if containsCI "onPress".toList attrs then some ((tag, attrs), len) else none
  | none => none

/-- All matches of Pattern 5. -/
def scanViews (content : Str) : List (Nat × (Str × Str)) :=
  scanWith tryView content

/-- Pattern 5 rule body: pressable `View`s without role / label
(lines 150-176). -/
def viewRule (relpath : String) (content : Str)
    (m : Nat × (Str × Str)) : List Violation :=
  let line_num := lineOf content m.1
  let attributes := m.2.2
  let has_role := hasAttrEq roleAttr attributes
  let has_label := hasAttrEq labelAttr attributes
  if !has_role then
    [{ file := relpath, line := line_num, element := "View",
       issue := "View with onPress missing accessibilityRole",
       severity := "error",
       recommendation := "Add accessibilityRole=\"button\" and accessibilityLabel",
       code_snippet := String.mk ((tagGroup0 m.2.1 attributes).take 100) }]
  else if !has_label then
    [{ file := relpath, line := line_num, element := "View",
       issue := "View with onPress missing accessibilityLabel",
       severity := "error",
       recommendation := "Add accessibilityLabel prop",
       code_snippet := String.mk ((tagGroup0 m.2.1 attributes).take 100) }]
  else []

/-- Violations of Pattern 1 for one file's content. -/
def mobileTouchViolations (relpath : String) (content : Str) : List Violation :=
  (scanTouchables content).flatMap (touchableRule relpath content)

/-- Violations of Pattern 2 for one file's content. -/
def mobileImageViolations (relpath : String) (content : Str) : List Violation :=
  (scanImages content).flatMap (imageRule relpath content)

/-- Violations of Pattern 3 for one file's content. -/
def mobileTextInputViolations (relpath : String) (content : Str) : List Violation :=
  (scanTextInputs content).flatMap (textInputRule relpath content)

/-- Violations of Pattern 4 for one file's content. -/
def mobileButtonViolations (relpath : String) (content : Str) : List Violation :=
  (scanMobileButtons content).flatMap (buttonRule relpath content)

/-- Violations of Pattern 5 for one file's content. -/
def mobileViewViolations (relpath : String) (content : Str) : List Violation :=
  (scanViews content).flatMap (viewRule relpath content)

/-- Embeds `audit_file` (mobile) on readable content: the five pattern loops run in
order, appending to the shared `violations` list. -/
def auditMobileContent (relpath : String) (content : Str) : List Violation :=
  mobileTouchViolations relpath content ++
  mobileImageViolations relpath content ++
  mobileTextInputViolations relpath content ++
  mobileButtonViolations relpath content ++
  mobileViewViolations relpath content

/-- A source file as seen by the audit: its (relative) path and its content,
`none` when the `open`/`read` at lines 46-48 raises (unreadable or
undecodable file). -/
structure SrcFile where
  path : String
  content : Option Str
deriving DecidableEq

/-- Embeds `audit_file` (mobile): the `except` clause returns the empty violation
list for an unreadable file. -/
def auditMobileFile (f : SrcFile) : List Violation :=
  match f.content with
  | none => []
  | some content => auditMobileContent f.path content

/-- The aggregate of a run: file count, ordered violation list, severity
partitions, and the report's compliance rate (a percentage, as computed in
`generate_report`). -/
structure AuditResult where
  totalFilesScanned : Nat
  violations : List Violation
  errors : List Violation
  warnings : List Violation
  complianceRate : ℚ
deriving DecidableEq

/-- Embeds `main` plus `generate_report` (mobile): audit every enumerated file in
order, collect all violations, partition by severity, and compute
`compliance_rate = (total - error_count) / total * 100` when `total > 0`,
else `0`. -/
def runMobile (files : List SrcFile) : AuditResult :=
  let all := files.flatMap auditMobileFile
  let errs := all.filter (fun v => v.severity == "error")
  let warns := all.filter (fun v => v.severity == "warning")
  let total := files.length
  { totalFilesScanned := total
    violations := all
    errors := errs
    warnings := warns
    complianceRate :=
      if 0 < total then ((total : ℚ) - (errs.length : ℚ)) / (total : ℚ) * 100
      else 0 }

/-! ### Web dialect (`audit-web-aria.py`) -/

/-- Does the regex `size\s*=\s*["\x27]icon["\x27]|className[^>]*icon` match
somewhere in the attribute region `r` (all of whose characters are non-`>`)?
This is the icon-detection heuristic of Pattern 1. -/
def iconHeuristic (r : Str) : Bool :=
  hasAttrEqQuoted "size".toList "icon".toList r ||
  existsSuffixB
    (fun t => startsWithCI "className".toList t &&
      containsCI "icon".toList (t.drop 9)) r

/-- Alternation of web Pattern 1: `(Button|IconButton|button)`. -/
def iconButtonNames : List Str :=
  ["Button".toList, "IconButton".toList, "button".toList]

/-- Try web Pattern 1,
`<(Button|IconButton|button)[^>]*(?:size\s*=\s*["\x27]icon["\x27]|className[^>]*icon)[^>]*>`
(`re.IGNORECASE`), at the start of `s`: a button tag whose attribute region
(bounded by the first `>`) satisfies the icon heuristic.  The payload is the
full `match.group(0)`. -/
def tryIconButton (s : Str) : Option (Str × Nat) :=
  match tryTag iconButtonNames s with
  | some ((tag, attrs), len) =>
    if iconHeuristic attrs then some (tagGroup0 tag attrs, len) else none
  | none => none

/-- All matches of web Pattern 1. -/
def scanIconButtons (content : Str) : List (Nat × Str) :=
  scanWith tryIconButton content

/-- Web Pattern 1 rule body (lines 55-75): icon buttons whose own span and
whose 6-line window (`lines[line_num-1 : line_num+5]`) both lack
`aria-label`. -/
def iconButtonRule (relpath : String) (content : Str) (lines : List Str)
    (m : Nat × Str) : List Violation :=
  let line_num := lineOf content m.1
  let element_content := m.2
  if !(hasAttrEq ariaLabel element_content) then
    let nearby_content := joinNl ((lines.drop (line_num - 1)).take 6)
    if !(hasAttrEq ariaLabel nearby_content) then
      [{ file := relpath, line := line_num, element := "IconButton/Button",
         issue := "Icon button missing aria-label",
         severity := "error",
         recommendation := "Add aria-label prop with descriptive text (e.g., \"Close dialog\", \"Send message\")",
         code_snippet := String.mk (element_content.take 100) }]
    else []
  else []

/-- Alternation of web Pattern 2: `(input|textarea|select)`. -/
def inputNames : List Str :=
  ["input".toList, "textarea".toList, "select".toList]

/-- All matches of web Pattern 2, `<(input|textarea|select)([^>]*?)>`,
`re.IGNORECASE`. -/
def scanInputs (content : Str) : List (Nat × (Str × Str)) :=
  scanWith (tryTag inputNames) content

/-- The hidden-input exemption of web Pattern 2 (line 85):
`re.search(r'type\s*=\s*["\x27]hidden["\x27]', attributes, re.IGNORECASE)`. -/
def isHiddenInput (attributes : Str) : Bool :=
  hasAttrEqQuoted "type".toList "hidden".toList attributes

/-- The cross-reference lookup of web Pattern 2 (lines 91-100): extract the
first `id="..."` value from the attribute span, and search the whole file for
`htmlFor\s*=\s*["\x27]ID["\x27]` (case-insensitive). -/
def inputCrossRef (attributes content : Str) : Bool :=
  match firstIdValue attributes with
  | some input_id => hasAttrEqQuoted "htmlFor".toList input_id content
  | none => false

/-- Web Pattern 2 rule body (lines 79-111): form controls without labels;
hidden inputs are skipped outright. -/
def inputRule (relpath : String) (content : Str)
    (m : Nat × (Str × Str)) : List Violation :=
  let line_num := lineOf content m.1
  let element_type := m.2.1
  let attributes := m.2.2
  if isHiddenInput attributes then []
  else
    let has_aria_label := hasAttrEq ariaLabel attributes
    let has_aria_labelled_by := hasAttrEq ariaLabelledBy attributes
    let has_label := inputCrossRef attributes content
    if !has_aria_label && !has_aria_labelled_by && !has_label then
      [{ file := relpath, line := line_num, element := String.mk element_type,
         issue := "Form input missing label or aria-label",
         severity := "error",
         recommendation := "Add htmlFor/id relationship, aria-label, or aria-labelledby",
         code_snippet := String.mk ((tagGroup0 element_type attributes).take 100) }]
    else []

/-- Alternation of web Pattern 3: `(Dialog|DialogContent|Modal|dialog)`.
(Because alternation is ordered and `Dialog` always succeeds first under
`re.IGNORECASE`, the later alternatives starting with `dialog` are
unreachable, exactly as in the Python regex.) -/
def modalNames : List Str :=
  ["Dialog".toList, "DialogContent".toList, "Modal".toList, "dialog".toList]

/-- All matches of web Pattern 3, `<(Dialog|DialogContent|Modal|dialog)([^>]*?)>`,
`re.IGNORECASE`. -/
def scanModals (content : Str) : List (Nat × (Str × Str)) :=
  scanWith (tryTag modalNames) content

/-- The `issues` list built by Pattern 3 (lines 120-133): each missing ARIA
marker is appended in source order, each append skipped when the
`DialogPrimitive` exemption flag `dp` (computed from `content[:match.start()]`)
holds. -/
def modalIssues (attributes : Str) (dp : Bool) : List String :=
  (if !(hasAttrEqQuoted "role".toList "dialog".toList attributes) &&
      !(hasAttrEqQuoted "role".toList "alertdialog".toList attributes) && !dp
   then ["Missing role=\"dialog\""] else []) ++
  (if !(hasAttrEqQuoted "aria-modal".toList "true".toList attributes) && !dp
   then ["Missing aria-modal=\"true\""] else []) ++
  (if !(hasAttrEq ariaLabelledBy attributes) && !dp
   then ["Missing aria-labelledby"] else [])

/-- Web Pattern 3 rule body (lines 115-144): modal/dialog tags missing ARIA
markers.  each missing marker is collected into `issues` unless the literal
`DialogPrimitive` occurs in `content[:match.start()]`; a non-empty `issues`
list becomes a single error violation. -/
def modalRule (relpath : String) (content : Str)
    (m : Nat × (Str × Str)) : List Violation :=
  let line_num := lineOf content m.1
  let element_type := m.2.1
  let attributes := m.2.2
  let dp := containsCS dialogPrimitiveMark (content.take m.1)
  let issues := modalIssues attributes dp
  if issues ≠ [] then
    [{ file := relpath, line := line_num, element := String.mk element_type,
       issue := "Modal/dialog missing ARIA attributes: " ++ String.intercalate ", " issues,
       severity := "error",
       recommendation := "Add role=\"dialog\", aria-modal=\"true\", aria-labelledby, and optionally aria-describedby",
       code_snippet := String.mk ((tagGroup0 element_type attributes).take 150) }]
  else []

/-- Scan forward for the lazy closing-tag alternation `(?:</a>|</Link>)`
(`re.IGNORECASE`): returns the inner content before the first closing tag
and that closing tag's length (4 or 7). -/
def findClose : Str → Option (Str × Nat)
  | [] => none
  | c :: rest =>
    if startsWithCI "</a>".toList (c :: rest) then some ([], 4)
    else if startsWithCI "</Link>".toList (c :: rest) then some ([], 7)
    else
      match findClose rest with
      | some (children, clen) => some (c :: children, clen)
      | none => none

/-- Try web Pattern 4, `<(a|Link)([^>]*?)>(.*?)(?:</a>|</Link>)`
(`re.IGNORECASE | re.DOTALL`), at the start of `s`.  Payload: attribute span
(`match.group(2)`), inner content (`match.group(3)`), and the full
`match.group(0)`. -/
def tryLink (s : Str) : Option ((Str × Str × Str) × Nat) :=
  match s with
  | [] => none
  | c :: rest =>
    if c = '<' then
      match pickName ["a".toList, "Link".toList] rest with
      | none => none
      | some n =>
        let tag := rest.take n.length
        let after := rest.drop n.length
        let attrs := after.takeWhile (fun ch => ch != '>')
        match (after.drop attrs.length).head? with
        | some c2 =>
          if c2 = '>' then
            let rest2 := after.drop (attrs.length + 1)
            match findClose rest2 with
            | some (children, clen) =>
              let closeTag := (rest2.drop children.length).take clen
              some ((attrs, children,
                     tagGroup0 tag attrs ++ children ++ closeTag),
                    n.length + attrs.length + 2 + children.length + clen)
            | none => none
          else none
        | none => none
    else none

/-- All matches of web Pattern 4. -/
def scanLinks (content : Str) : List (Nat × (Str × Str × Str)) :=
  scanWith tryLink content

/-- Embeds `re.sub(r'<[^>]+>', '', children)`: delete every non-overlapping
`<...>` span (with at least one inner non-`>` character), left to right. -/
def stripTagsAux : Nat → Str → Str
  | 0, s => s
  | _ + 1, [] => []
  | fuel + 1, c :: rest =>
    if c = '<' then
      let inner := rest.takeWhile (fun ch => ch != '>')
      if 1 ≤ inner.length && (rest.drop inner.length).head? == some '>' then
        stripTagsAux fuel (rest.drop (inner.length + 1))
      else c :: stripTagsAux fuel rest
    else c :: stripTagsAux fuel rest

/-- Embeds `re.sub(r'<[^>]+>', '', s)`. -/
def stripTags (s : Str) : Str := stripTagsAux s.length s

/-- Python `str.strip()` on the ASCII range. -/
def pyStrip (s : Str) : Str :=
  ((s.dropWhile isSpace).reverse.dropWhile isSpace).reverse

/-- Embeds `re.search(r'[A-Za-z0-9]{2,}', s)`: two consecutive ASCII alphanumerics
somewhere in `s`. -/
def hasAlnumRun2 : Str → Bool
  | a :: b :: rest => (isAlnum a && isAlnum b) || hasAlnumRun2 (b :: rest)
  | _ => false

/-- The accessible-text test of Pattern 4 (line 159):
`len(text_content) >= 2 and re.search(r'[A-Za-z0-9]{2,}', text_content)`
applied to the tag-stripped, whitespace-stripped inner content. -/
def linkHasText (children : Str) : Bool :=
  let text_content := pyStrip (stripTags children)
  decide (2 ≤ text_content.length) && hasAlnumRun2 text_content

/-- Does `alt\s*=\s*["\x27][^"\x27]+["\x27]` match after an optional run of
non-`>` characters (the `[^>]*` between `<img` and `alt`)? -/
def altSearchFrom : Str → Bool
  | [] => false
  | c :: rest =>
    (startsWithCI "alt".toList (c :: rest) &&
      (match ((c :: rest).drop 3).dropWhile isSpace with
       | '=' :: r2 =>
         match r2.dropWhile isSpace with
         | q :: r4 =>
           isQuote q &&
             (let run := r4.takeWhile (fun ch => !(isQuote ch))
              1 ≤ run.length &&
                (match (r4.drop run.length).head? with
                 | some q2 => isQuote q2
                 | none => false))
         | [] => false
       | _ => false)) ||
    (c != '>' && altSearchFrom rest)

/-- Embeds `re.search(r'<img[^>]*alt\s*=\s*["\x27][^"\x27]+["\x27]', children,
re.IGNORECASE)`: a child image with a non-empty `alt` value. -/
def hasImgAlt (children : Str) : Bool :=
  existsSuffixB
    (fun t => startsWithCI "<img".toList t && altSearchFrom (t.drop 4)) children

/-- Web Pattern 4 rule body (lines 148-171): links with neither `aria-label`,
non-trivial visible text, nor a child image with alt text. -/
def linkRule (relpath : String) (content : Str)
    (m : Nat × (Str × Str × Str)) : List Violation :=
  let line_num := lineOf content m.1
  let attributes := m.2.1
  let children := m.2.2.1
  let group0 := m.2.2.2
  if hasAttrEq ariaLabel attributes then []
  else
    let has_text := linkHasText children
    let has_image_with_alt := hasImgAlt children
    if !has_text && !has_image_with_alt then
      [{ file := relpath, line := line_num, element := "Link",
         issue := "Link missing aria-label or accessible text",
         severity := "warning",
         recommendation := "Add aria-label prop or ensure link has visible text or image with alt text",
         code_snippet := String.mk (group0.take 150) }]
    else []

/-- Violations of web Pattern 1 for one file's content. -/
def webIconButtonViolations (relpath : String) (content : Str) : List Violation :=
  (scanIconButtons content).flatMap
    (iconButtonRule relpath content (splitNl content))

/-- Violations of web Pattern 2 for one file's content. -/
def webInputViolations (relpath : String) (content : Str) : List Violation :=
  (scanInputs content).flatMap (inputRule relpath content)

/-- Violations of web Pattern 3 for one file's content. -/
def webModalViolations (relpath : String) (content : Str) : List Violation :=
  (scanModals content).flatMap (modalRule relpath content)

/-- Violations of web Pattern 4 for one file's content. -/
def webLinkViolations (relpath : String) (content : Str) : List Violation :=
  (scanLinks content).flatMap (linkRule relpath content)

/-- Embeds `audit_file` (web) on readable content: the four pattern loops in order. -/
def auditWebContent (relpath : String) (content : Str) : List Violation :=
  webIconButtonViolations relpath content ++
  webInputViolations relpath content ++
  webModalViolations relpath content ++
  webLinkViolations relpath content

/-- Embeds `audit_file` (web): the `except` clause returns the empty violation list
for an unreadable file. -/
def auditWebFile (f : SrcFile) : List Violation :=
  match f.content with
  | none => []
  | some content => auditWebContent f.path content

/-- Embeds `main` plus `generate_report` (web): same aggregation as the mobile script. -/
def runWeb (files : List SrcFile) : AuditResult :=
  let all := files.flatMap auditWebFile
  let errs := all.filter (fun v => v.severity == "error")
  let warns := all.filter (fun v => v.severity == "warning")
  let total := files.length
  { totalFilesScanned := total
    violations := all
    errors := errs
    warnings := warns
    complianceRate :=
      if 0 < total then ((total : ℚ) - (errs.length : ℚ)) / (total : ℚ) * 100
      else 0 }

/-! ### Structural lemmas about the scanners and the aggregator -/

/-- Every entry emitted by a scan starting at `pos` has start offset `≥ pos`. -/
theorem scanWithAux_le {α : Type} (f : Str → Option (α × Nat)) :
    ∀ (fuel : Nat) (s : Str) (pos : Nat) (x : Nat × α),
      x ∈ scanWithAux f fuel s pos → pos ≤ x.1 := by
  intro fuel
  induction fuel with
  | zero => intro s pos x hx; simp [scanWithAux] at hx
  | succ fuel ih =>
    intro s pos x hx
    cases s with
    | nil => simp [scanWithAux] at hx
    | cons c rest =>
      cases hf : f (c :: rest) with
      | none =>
        rw [scanWithAux, hf] at hx
        have := ih rest (pos + 1) x hx
        omega
      | some p =>
        obtain ⟨a, len⟩ := p
        rw [scanWithAux, hf] at hx
        rcases List.mem_cons.mp hx with h | h
        · simp [h]
        · have := ih _ (pos + len) x h
          omega

/-- When every successful single-position match consumes at least one
character, the emitted start offsets are strictly increasing: matches are
reported in in-file order. -/
theorem scanWithAux_pairwise {α : Type} (f : Str → Option (α × Nat))
    (hf : ∀ s a n, f s = some (a, n) → 1 ≤ n) :
    ∀ (fuel : Nat) (s : Str) (pos : Nat),
      (scanWithAux f fuel s pos).Pairwise (fun x y => x.1 < y.1) := by
  intro fuel
  induction fuel with
  | zero => intro s pos; simp [scanWithAux]
  | succ fuel ih =>
    intro s pos
    cases s with
    | nil => simp [scanWithAux]
    | cons c rest =>
      cases hfc : f (c :: rest) with
      | none =>
        rw [scanWithAux, hfc]
        exact ih rest (pos + 1)
      | some p =>
        obtain ⟨a, len⟩ := p
        rw [scanWithAux, hfc]
        refine List.Pairwise.cons ?_ (ih _ _)
        intro y hy
        have h1 := scanWithAux_le f fuel _ (pos + len) y hy
        have h2 := hf _ _ _ hfc
        simp only
        omega

/-- A whole-text scan has strictly increasing start offsets. -/
theorem scanWith_pairwise {α : Type} {f : Str → Option (α × Nat)}
    (hf : ∀ s a n, f s = some (a, n) → 1 ≤ n) (s : Str) :
    (scanWith f s).Pairwise (fun x y => x.1 < y.1) :=
  scanWithAux_pairwise f hf s.length s 0

/-- A successful `tryTag` consumes at least one character. -/
theorem tryTag_one_le {names : List Str} {s : Str} {p : Str × Str} {n : Nat}
    (h : tryTag names s = some (p, n)) : 1 ≤ n := by
  cases s with
  | nil => simp [tryTag] at h
  | cons c rest =>
    simp only [tryTag] at h
    split at h
    · split at h
      · simp at h
      · split at h
        · split at h
          · simp only [Option.some.injEq, Prod.mk.injEq] at h
            omega
          · simp at h
        · simp at h
    · simp at h

/-- A successful `tryView` consumes at least one character. -/
theorem tryView_one_le {s : Str} {p : Str × Str} {n : Nat}
    (h : tryView s = some (p, n)) : 1 ≤ n := by
  unfold tryView at h
  cases ht : tryTag ["View".toList] s with
  | none => rw [ht] at h; simp at h
  | some q =>
    obtain ⟨⟨tag, attrs⟩, len⟩ := q
    rw [ht] at h
    simp only at h
    split at h
    · simp only [Option.some.injEq, Prod.mk.injEq] at h
      have := tryTag_one_le ht
      omega
    · simp at h

/-- A successful `tryIconButton` consumes at least one character. -/
theorem tryIconButton_one_le {s : Str} {p : Str} {n : Nat}
    (h : tryIconButton s = some (p, n)) : 1 ≤ n := by
  unfold tryIconButton at h
  cases ht : tryTag iconButtonNames s with
  | none => rw [ht] at h; simp at h
  | some q =>
    obtain ⟨⟨tag, attrs⟩, len⟩ := q
    rw [ht] at h
    simp only at h
    split at h
    · simp only [Option.some.injEq, Prod.mk.injEq] at h
      have := tryTag_one_le ht
      omega
    · simp at h

/-- A successful `tryLink` consumes at least one character. -/
theorem tryLink_one_le {s : Str} {p : Str × Str × Str} {n : Nat}
    (h : tryLink s = some (p, n)) : 1 ≤ n := by
  cases s with
  | nil => simp [tryLink] at h
  | cons c rest =>
    simp only [tryLink] at h
    split at h
    · split at h
      · simp at h
      · split at h
        · split at h
          · split at h
            · simp only [Option.some.injEq, Prod.mk.injEq] at h
              omega
            · simp at h
          · simp at h
        · simp at h
    · simp at h

/-- Project out the violation sequence of a mobile run. -/
theorem runMobile_violations (files : List SrcFile) :
    (runMobile files).violations = files.flatMap auditMobileFile := rfl

/-- Project out the file count of a mobile run. -/
theorem runMobile_total (files : List SrcFile) :
    (runMobile files).totalFilesScanned = files.length := rfl

/-- Project out the compliance rate of a mobile run. -/
theorem runMobile_complianceRate (files : List SrcFile) :
    (runMobile files).complianceRate =
      if 0 < files.length then
        ((files.length : ℚ) - ((runMobile files).errors.length : ℚ)) /
          (files.length : ℚ) * 100
      else 0 := rfl

/-- Project out the violation sequence of a web run. -/
theorem runWeb_violations (files : List SrcFile) :
    (runWeb files).violations = files.flatMap auditWebFile := rfl

/-- Project out the file count of a web run. -/
theorem runWeb_total (files : List SrcFile) :
    (runWeb files).totalFilesScanned = files.length := rfl

/-- Project out the compliance rate of a web run. -/
theorem runWeb_complianceRate (files : List SrcFile) :
    (runWeb files).complianceRate =
      if 0 < files.length then
        ((files.length : ℚ) - ((runWeb files).errors.length : ℚ)) /
          (files.length : ℚ) * 100
      else 0 := rfl

/-! ### Claims -/

/-- C1, counterexample.  The claim asserts that in the mobile dialect tag
recognition is case-sensitive, so that `<touchableopacity ...>` produces no
Occurrence and no violation.  In fact the mobile script passes
`re.IGNORECASE` to every `finditer` call: the case-variant opening tag is
matched and yields an error violation. -/
theorem c1_counterexample :
    scanTouchables "<touchableopacity onPress={fn}>".toList ≠ [] ∧
    auditMobileFile ⟨"f.tsx", some "<touchableopacity onPress={fn}>".toList⟩ ≠ [] := by
  constructor <;> decide

/-- C1, amended.  Tag recognition is case-insensitive in BOTH dialects: a
mobile case-variant opening tag `<touchableopacity ...>` produces exactly one
Occurrence (with the source's spelling preserved) and one error violation,
just as the web case-variant `<INPUT >` produces an Occurrence. -/
theorem c1_case_insensitive_both_dialects :
    (scanTouchables "<touchableopacity onPress={fn}>".toList).length = 1 ∧
    (auditMobileContent "f.tsx" "<touchableopacity onPress={fn}>".toList).map
      (fun v => (v.element, v.severity)) = [("touchableopacity", "error")] ∧
    (scanInputs "<INPUT >".toList).length = 1 := by
  refine ⟨?_, ?_, ?_⟩ <;> decide

/-- C2.  For every touchable/pressable occurrence in the mobile dialect:
with neither `accessibilityRole` nor `accessibilityLabel` the rule yields
exactly one error violation whose issue and recommendation reference both
missing attributes; with the role present and the label absent it yields
exactly one error violation referencing only the label; with the label
present it yields nothing.  The final conjunct is the end-to-end scenario:
a file containing only `<TouchableOpacity onPress={fn}>` yields exactly one
error violation with element `TouchableOpacity` and an issue naming both
missing props. -/
theorem c2_touchable_rule (relpath : String) (content : Str) (pos : Nat)
    (tag attrs : Str) :
    (hasAttrEq roleAttr attrs = false →
     hasAttrEq labelAttr attrs = false →
     touchableRule relpath content (pos, (tag, attrs)) =
       [{ file := relpath, line := lineOf content pos, element := String.mk tag,
          issue := "Touchable component missing accessibilityRole and accessibilityLabel",
          severity := "error",
          recommendation := "Add accessibilityRole and accessibilityLabel props",
          code_snippet := String.mk ((tagGroup0 tag attrs).take 100) }]) ∧
    (hasAttrEq roleAttr attrs = true →
     hasAttrEq labelAttr attrs = false →
     touchableRule relpath content (pos, (tag, attrs)) =
       [{ file := relpath, line := lineOf content pos, element := String.mk tag,
          issue := "Touchable component missing accessibilityLabel",
          severity := "error",
          recommendation := "Add accessibilityLabel prop with descriptive text",
          code_snippet := String.mk ((tagGroup0 tag attrs).take 100) }]) ∧
    (hasAttrEq labelAttr attrs = true →
     touchableRule relpath content (pos, (tag, attrs)) = []) ∧
    (auditMobileContent "f.tsx" "<TouchableOpacity onPress={fn}>".toList).map
      (fun v => (v.element, v.severity, v.issue)) =
      [("TouchableOpacity", "error",
        "Touchable component missing accessibilityRole and accessibilityLabel")] := by
  refine ⟨?_, ?_, ?_, by decide⟩
  · intro h1 h2
    simp only [touchableRule]
    rw [h1, h2]
    simp
  · intro h1 h2
    simp only [touchableRule]
    rw [h1, h2]
    simp
  · intro h
    simp only [touchableRule]
    rw [h]
    simp

/-- C2, witness: the three branches of `c2_touchable_rule` applied at
concrete attribute spans. -/
theorem c2_touchable_rule_witness :
    touchableRule "f.tsx" "<TouchableOpacity onPress={fn}>".toList
      (0, ("TouchableOpacity".toList, " onPress={fn}".toList)) =
      [{ file := "f.tsx", line := 1, element := "TouchableOpacity",
         issue := "Touchable component missing accessibilityRole and accessibilityLabel",
         severity := "error",
         recommendation := "Add accessibilityRole and accessibilityLabel props",
         code_snippet := "<TouchableOpacity onPress={fn}>" }] ∧
    touchableRule "f.tsx" "<Pressable accessibilityRole=\"button\">".toList
      (0, ("Pressable".toList, " accessibilityRole=\"button\"".toList)) =
      [{ file := "f.tsx", line := 1, element := "Pressable",
         issue := "Touchable component missing accessibilityLabel",
         severity := "error",
         recommendation := "Add accessibilityLabel prop with descriptive text",
         code_snippet := "<Pressable accessibilityRole=\"button\">" }] ∧
    touchableRule "f.tsx" "<Pressable accessibilityLabel=\"go\">".toList
      (0, ("Pressable".toList, " accessibilityLabel=\"go\"".toList)) = [] := by
  refine ⟨?_, ?_, ?_⟩
  · have h := (c2_touchable_rule "f.tsx" "<TouchableOpacity onPress={fn}>".toList 0
      "TouchableOpacity".toList " onPress={fn}".toList).1 (by decide) (by decide)
    rw [h]
    decide
  · have h := (c2_touchable_rule "f.tsx" "<Pressable accessibilityRole=\"button\">".toList 0
      "Pressable".toList " accessibilityRole=\"button\"".toList).2.1 (by decide) (by decide)
    rw [h]
    decide
  · exact (c2_touchable_rule "f.tsx" "<Pressable accessibilityLabel=\"go\">".toList 0
      "Pressable".toList " accessibilityLabel=\"go\"".toList).2.2.1 (by decide)

/-- C3.  For every input/textarea/select occurrence in the web dialect:
a hidden-type input yields zero violations regardless of labels; otherwise
the rule yields exactly one error violation precisely when the occurrence
has no `aria-label`, no `aria-labelledby`, and no cross-referenced label
(`htmlFor` bound to the element's first `id` value anywhere in the file).
The final conjunct is the end-to-end scenario: `<input type="text"
id="email" />` plus `<label htmlFor="email">Email</label>` elsewhere in the
same file yields zero violations. -/
theorem c3_input_rule (relpath : String) (content : Str) (pos : Nat)
    (tag attrs : Str) :
    (isHiddenInput attrs = true →
     inputRule relpath content (pos, (tag, attrs)) = []) ∧
    (hasAttrEq ariaLabel attrs = true →
     inputRule relpath content (pos, (tag, attrs)) = []) ∧
    (hasAttrEq ariaLabelledBy attrs = true →
     inputRule relpath content (pos, (tag, attrs)) = []) ∧
    (inputCrossRef attrs content = true →
     inputRule relpath content (pos, (tag, attrs)) = []) ∧
    (isHiddenInput attrs = false →
     hasAttrEq ariaLabel attrs = false →
     hasAttrEq ariaLabelledBy attrs = false →
     inputCrossRef attrs content = false →
     inputRule relpath content (pos, (tag, attrs)) =
       [{ file := relpath, line := lineOf content pos, element := String.mk tag,
          issue := "Form input missing label or aria-label",
          severity := "error",
          recommendation := "Add htmlFor/id relationship, aria-label, or aria-labelledby",
          code_snippet := String.mk ((tagGroup0 tag attrs).take 100) }]) ∧
    auditWebContent "f.tsx"
      "<input type=\"text\" id=\"email\" /> <label htmlFor=\"email\">Email</label>".toList =
      [] := by
  refine ⟨?_, ?_, ?_, ?_, ?_, by decide⟩
  · intro h
    simp [inputRule, h]
  · intro h
    simp [inputRule, h]
  · intro h
    simp [inputRule, h]
  · intro h
    simp [inputRule, h]
  · intro h1 h2 h3 h4
    simp [inputRule, h1, h2, h3, h4]

/-- C3, witness: the branches of `c3_input_rule` applied at concrete inputs —
a hidden input, an input resolved by a cross-referenced label, and an
unlabeled text input. -/
theorem c3_input_rule_witness :
    inputRule "f.tsx" "<input type=\"hidden\" name=\"tok\" />".toList
      (0, ("input".toList, " type=\"hidden\" name=\"tok\" /".toList)) = [] ∧
    inputRule "f.tsx"
      "<input type=\"text\" id=\"email\" /> <label htmlFor=\"email\">Email</label>".toList
      (0, ("input".toList, " type=\"text\" id=\"email\" /".toList)) = [] ∧
    inputRule "f.tsx" "<input type=\"text\" />".toList
      (0, ("input".toList, " type=\"text\" /".toList)) =
      [{ file := "f.tsx", line := 1, element := "input",
         issue := "Form input missing label or aria-label",
         severity := "error",
         recommendation := "Add htmlFor/id relationship, aria-label, or aria-labelledby",
         code_snippet := "<input type=\"text\" />" }] := by
  refine ⟨?_, ?_, ?_⟩
  · exact (c3_input_rule "f.tsx" "<input type=\"hidden\" name=\"tok\" />".toList 0
      "input".toList " type=\"hidden\" name=\"tok\" /".toList).1 (by decide)
  · exact (c3_input_rule "f.tsx"
      "<input type=\"text\" id=\"email\" /> <label htmlFor=\"email\">Email</label>".toList 0
      "input".toList " type=\"text\" id=\"email\" /".toList).2.2.2.1 (by decide)
  · have h := (c3_input_rule "f.tsx" "<input type=\"text\" />".toList 0
      "input".toList " type=\"text\" /".toList).2.2.2.2.1
      (by decide) (by decide) (by decide) (by decide)
    rw [h]
    decide

/-- C4.  For every anchor/link occurrence in the web dialect with no
`aria-label`: when its inner text content (tags stripped, whitespace
stripped) has at least 2 characters and an alphanumeric run of length ≥ 2,
the rule yields zero violations; when the text is trivial and there is no
child image with non-empty alt text, the rule yields exactly one
warning-severity violation.  The final conjuncts are the end-to-end
scenarios: a link with inner text `ok` yields zero violations, and an empty
link yields exactly one warning. -/
theorem c4_link_rule (relpath : String) (content : Str) (pos : Nat)
    (attrs children group0 : Str) :
    (hasAttrEq ariaLabel attrs = false →
     linkHasText children = true →
     linkRule relpath content (pos, (attrs, children, group0)) = []) ∧
    (hasAttrEq ariaLabel attrs = false →
     linkHasText children = false →
     hasImgAlt children = false →
     linkRule relpath content (pos, (attrs, children, group0)) =
       [{ file := relpath, line := lineOf content pos, element := "Link",
          issue := "Link missing aria-label or accessible text",
          severity := "warning",
          recommendation := "Add aria-label prop or ensure link has visible text or image with alt text",
          code_snippet := String.mk (group0.take 150) }]) ∧
    linkHasText "ok".toList = true ∧
    auditWebContent "f.tsx" "<a href=\"/x\">ok</a>".toList = [] ∧
    (auditWebContent "f.tsx" "<a href=\"/x\"></a>".toList).map
      (fun v => (v.element, v.severity)) = [("Link", "warning")] := by
  refine ⟨?_, ?_, by decide, by decide, by decide⟩
  · intro h1 h2
    simp [linkRule, h1, h2]
  · intro h1 h2 h3
    simp [linkRule, h1, h2, h3]

/-- C4, witness: the two branches of `c4_link_rule` applied at concrete
inner contents `ok` and the empty string. -/
theorem c4_link_rule_witness :
    linkRule "f.tsx" "<a href=\"/x\">ok</a>".toList
      (0, (" href=\"/x\"".toList, "ok".toList, "<a href=\"/x\">ok</a>".toList)) = [] ∧
    linkRule "f.tsx" "<a href=\"/x\"></a>".toList
      (0, (" href=\"/x\"".toList, [], "<a href=\"/x\"></a>".toList)) =
      [{ file := "f.tsx", line := 1, element := "Link",
         issue := "Link missing aria-label or accessible text",
         severity := "warning",
         recommendation := "Add aria-label prop or ensure link has visible text or image with alt text",
         code_snippet := "<a href=\"/x\"></a>" }] := by
  constructor
  · exact (c4_link_rule "f.tsx" "<a href=\"/x\">ok</a>".toList 0
      " href=\"/x\"".toList "ok".toList "<a href=\"/x\">ok</a>".toList).1
      (by decide) (by decide)
  · have h := (c4_link_rule "f.tsx" "<a href=\"/x\"></a>".toList 0
      " href=\"/x\"".toList [] "<a href=\"/x\"></a>".toList).2.1
      (by decide) (by decide) (by decide)
    rw [h]
    decide

/-- C5, counterexample.  The claim states `complianceRate =
(totalFilesScanned - errorCount) / totalFilesScanned` for a positive file
count.  The code computes that ratio multiplied by 100 (a percentage, line
189 of the mobile script): on one clean file the computed rate is 100, not
`(1 - 0) / 1 = 1`. -/
theorem c5_counterexample :
    (runMobile [⟨"f.tsx", some ['x']⟩]).totalFilesScanned = 1 ∧
    (runMobile [⟨"f.tsx", some ['x']⟩]).errors = [] ∧
    (runMobile [⟨"f.tsx", some ['x']⟩]).complianceRate = 100 ∧
    (runMobile [⟨"f.tsx", some ['x']⟩]).complianceRate ≠
      (((runMobile [⟨"f.tsx", some ['x']⟩]).totalFilesScanned : ℚ) -
        ((runMobile [⟨"f.tsx", some ['x']⟩]).errors.length : ℚ)) /
        ((runMobile [⟨"f.tsx", some ['x']⟩]).totalFilesScanned : ℚ) := by
  have he : (runMobile [⟨"f.tsx", some ['x']⟩]).errors = [] := by decide
  have ht : (runMobile [⟨"f.tsx", some ['x']⟩]).totalFilesScanned = 1 := by decide
  have hr := runMobile_complianceRate [⟨"f.tsx", some ['x']⟩]
  rw [he] at hr
  norm_num at hr
  refine ⟨ht, he, hr, ?_⟩
  rw [hr, ht, he]
  norm_num

/-- C5, amended.  In both dialects `complianceRate` equals
`(totalFilesScanned - errorCount) / totalFilesScanned * 100` — the ratio of
the claim expressed as a percentage — when `totalFilesScanned > 0`, and is
defined as `0` when `totalFilesScanned = 0`; no division error occurs in
either case (division is total on `ℚ` and the zero case is guarded). -/
theorem c5_compliance_percentage (files : List SrcFile) :
    ((runMobile files).complianceRate =
      if 0 < (runMobile files).totalFilesScanned then
        (((runMobile files).totalFilesScanned : ℚ) -
          ((runMobile files).errors.length : ℚ)) /
          ((runMobile files).totalFilesScanned : ℚ) * 100
      else 0) ∧
    ((runWeb files).complianceRate =
      if 0 < (runWeb files).totalFilesScanned then
        (((runWeb files).totalFilesScanned : ℚ) -
          ((runWeb files).errors.length : ℚ)) /
          ((runWeb files).totalFilesScanned : ℚ) * 100
      else 0) ∧
    (runMobile []).complianceRate = 0 ∧
    (runWeb []).complianceRate = 0 := by
  refine ⟨rfl, rfl, rfl, rfl⟩

/-- C6.  A file whose read fails is counted in `totalFilesScanned`,
contributes zero violations, and does not disturb the processing of the
remaining files: the violations of a run over `pre ++ [bad] ++ post` are
exactly those of `pre` followed by those of `post`, in both dialects. -/
theorem c6_unreadable_file_isolated (pre post : List SrcFile) (name : String) :
    (runMobile (pre ++ ⟨name, none⟩ :: post)).totalFilesScanned =
      pre.length + 1 + post.length ∧
    auditMobileFile ⟨name, none⟩ = [] ∧
    (runMobile (pre ++ ⟨name, none⟩ :: post)).violations =
      (runMobile pre).violations ++ (runMobile post).violations ∧
    (runWeb (pre ++ ⟨name, none⟩ :: post)).totalFilesScanned =
      pre.length + 1 + post.length ∧
    auditWebFile ⟨name, none⟩ = [] ∧
    (runWeb (pre ++ ⟨name, none⟩ :: post)).violations =
      (runWeb pre).violations ++ (runWeb post).violations := by
  refine ⟨?_, rfl, ?_, ?_, rfl, ?_⟩
  · rw [runMobile_total]
    simp
    omega
  · rw [runMobile_violations, runMobile_violations, runMobile_violations]
    simp [auditMobileFile]
  · rw [runWeb_total]
    simp
    omega
  · rw [runWeb_violations, runWeb_violations, runWeb_violations]
    simp [auditWebFile]

/-- C7.  For every dialog/modal occurrence in the web dialect: when the
accessible-primitive marker `DialogPrimitive` occurs earlier in the file the
occurrence yields zero violations from this rule; otherwise, when at least
one ARIA marker (dialog role, modal state, label reference) is missing, all
missing markers are reported together as exactly one error violation whose
issue lists each of them; when none is missing, zero violations. -/
theorem c7_modal_rule (relpath : String) (content : Str) (pos : Nat)
    (tag attrs : Str) :
    (containsCS dialogPrimitiveMark (content.take pos) = true →
     modalRule relpath content (pos, (tag, attrs)) = []) ∧
    (containsCS dialogPrimitiveMark (content.take pos) = false →
     modalIssues attrs false ≠ [] →
     modalRule relpath content (pos, (tag, attrs)) =
       [{ file := relpath, line := lineOf content pos, element := String.mk tag,
          issue := "Modal/dialog missing ARIA attributes: " ++
            String.intercalate ", " (modalIssues attrs false),
          severity := "error",
          recommendation := "Add role=\"dialog\", aria-modal=\"true\", aria-labelledby, and optionally aria-describedby",
          code_snippet := String.mk ((tagGroup0 tag attrs).take 150) }]) ∧
    (containsCS dialogPrimitiveMark (content.take pos) = false →
     modalIssues attrs false = [] →
     modalRule relpath content (pos, (tag, attrs)) = []) := by
  refine ⟨?_, ?_, ?_⟩
  · intro h
    simp [modalRule, h, modalIssues]
  · intro h hne
    simp [modalRule, h, hne]
  · intro h he
    simp [modalRule, h, he]

/-- C7, witness: the branches of `c7_modal_rule` at concrete inputs — a
bare `<Dialog open>` (all three markers missing, one combined error), the
same occurrence preceded by the `DialogPrimitive` marker (exempt), and a
fully marked dialog (no violation). -/
theorem c7_modal_rule_witness :
    modalRule "f.tsx" "<Dialog open>x</Dialog>".toList
      (0, ("Dialog".toList, " open".toList)) =
      [{ file := "f.tsx", line := 1, element := "Dialog",
         issue := "Modal/dialog missing ARIA attributes: Missing role=\"dialog\", Missing aria-modal=\"true\", Missing aria-labelledby",
         severity := "error",
         recommendation := "Add role=\"dialog\", aria-modal=\"true\", aria-labelledby, and optionally aria-describedby",
         code_snippet := "<Dialog open>" }] ∧
    modalRule "f.tsx" "import DialogPrimitive from r\n<Dialog open>x</Dialog>".toList
      (30, ("Dialog".toList, " open".toList)) = [] ∧
    modalRule "f.tsx"
      "<Dialog role=\"dialog\" aria-modal=\"true\" aria-labelledby=\"t\">".toList
      (0, ("Dialog".toList,
           " role=\"dialog\" aria-modal=\"true\" aria-labelledby=\"t\"".toList)) = [] := by
  refine ⟨?_, ?_, ?_⟩
  · have h := (c7_modal_rule "f.tsx" "<Dialog open>x</Dialog>".toList 0
      "Dialog".toList " open".toList).2.1 (by decide) (by decide)
    rw [h]
    decide
  · exact (c7_modal_rule "f.tsx"
      "import DialogPrimitive from r\n<Dialog open>x</Dialog>".toList 30
      "Dialog".toList " open".toList).1 (by decide)
  · exact (c7_modal_rule "f.tsx"
      "<Dialog role=\"dialog\" aria-modal=\"true\" aria-labelledby=\"t\">".toList 0
      "Dialog".toList
      " role=\"dialog\" aria-modal=\"true\" aria-labelledby=\"t\"".toList).2.2
      (by decide) (by decide)

/-- C8, counterexample.  The claim asserts that within one file violations
appear in in-file match order.  The mobile script runs its five pattern
loops one after another, so a `TouchableOpacity` on line 2 is reported
before an `Image` on line 1 of the same file: the violation of the
later-starting occurrence precedes that of the earlier-starting one. -/
theorem c8_counterexample :
    (auditMobileContent "f.tsx" "<Image a>\n<TouchableOpacity b>".toList).map
      (fun v => (v.element, v.line)) =
      [("TouchableOpacity", 2), ("Image", 1)] := by
  decide

/-- C8, amended.  The violation sequence is ordered by file enumeration
order, then by rule (pattern) order within each file, and only within one
rule by in-file match order: the run concatenates per-file results in
enumeration order, each file's result concatenates the five pattern results
in the scripts' fixed order, and each pattern's scanner emits matches at
strictly increasing start offsets. -/
theorem c8_ordering :
    (∀ files : List SrcFile,
       (runMobile files).violations = files.flatMap auditMobileFile) ∧
    (∀ (relpath : String) (content : Str),
       auditMobileContent relpath content =
         mobileTouchViolations relpath content ++
         mobileImageViolations relpath content ++
         mobileTextInputViolations relpath content ++
         mobileButtonViolations relpath content ++
         mobileViewViolations relpath content) ∧
    (∀ content : Str,
       (scanTouchables content).Pairwise (fun x y => x.1 < y.1)) ∧
    (∀ content : Str,
       (scanImages content).Pairwise (fun x y => x.1 < y.1)) ∧
    (∀ content : Str,
       (scanTextInputs content).Pairwise (fun x y => x.1 < y.1)) ∧
    (∀ content : Str,
       (scanMobileButtons content).Pairwise (fun x y => x.1 < y.1)) ∧
    (∀ content : Str,
       (scanViews content).Pairwise (fun x y => x.1 < y.1)) := by
  refine ⟨fun _ => rfl, fun _ _ => by simp [auditMobileContent], ?_, ?_, ?_, ?_, ?_⟩
  · exact fun content => scanWith_pairwise (fun _ _ _ h => tryTag_one_le h) content
  · exact fun content => scanWith_pairwise (fun _ _ _ h => tryTag_one_le h) content
  · exact fun content => scanWith_pairwise (fun _ _ _ h => tryTag_one_le h) content
  · exact fun content => scanWith_pairwise (fun _ _ _ h => tryTag_one_le h) content
  · exact fun content => scanWith_pairwise (fun _ _ _ h => tryView_one_le h) content

/-- C9.  The audit engine is a pure function of the enumerated file set:
identical file sets (same paths, same contents, same order) produce
identical `AuditResult`s — same counts and same violation ordering — in
both dialects; there is no randomness or time dependence in rule
evaluation. -/
theorem c9_deterministic (fs gs : List SrcFile) (h : fs = gs) :
    runMobile fs = runMobile gs ∧ runWeb fs = runWeb gs := by
  rw [h]
  exact ⟨rfl, rfl⟩

/-- C9, witness: two runs over the same one-file set coincide. -/
theorem c9_deterministic_witness :
    runMobile [⟨"a.tsx", some "<Image a>".toList⟩] =
      runMobile [⟨"a.tsx", some "<Image a>".toList⟩] ∧
    runWeb [⟨"a.tsx", some "<Image a>".toList⟩] =
      runWeb [⟨"a.tsx", some "<Image a>".toList⟩] :=
  c9_deterministic [⟨"a.tsx", some "<Image a>".toList⟩]
    [⟨"a.tsx", some "<Image a>".toList⟩] rfl

/-- C10.  `complianceRate` is not bounded below by 0: a single file holding
two unlabeled touchables yields `totalFilesScanned = 1` and `errorCount =
2`, so the rate `(1 - 2) / 1 * 100` is strictly negative. -/
theorem c10_negative_compliance :
    (runMobile [⟨"a.tsx",
        some "<TouchableOpacity x><TouchableOpacity y>".toList⟩]).totalFilesScanned = 1 ∧
    (runMobile [⟨"a.tsx",
        some "<TouchableOpacity x><TouchableOpacity y>".toList⟩]).errors.length = 2 ∧
    (runMobile [⟨"a.tsx",
        some "<TouchableOpacity x><TouchableOpacity y>".toList⟩]).complianceRate < 0 := by
  have he : (runMobile [⟨"a.tsx",
      some "<TouchableOpacity x><TouchableOpacity y>".toList⟩]).errors.length = 2 := by
    decide
  have hr := runMobile_complianceRate
    [⟨"a.tsx", some "<TouchableOpacity x><TouchableOpacity y>".toList⟩]
  rw [he] at hr
  refine ⟨by decide, he, ?_⟩
  rw [hr]
  norm_num

end Audit

